import Mathlib

/-!
Shallow embedding of the TST-Reservation-API domain core
(src/domain/enums.py, src/domain/value_objects.py, src/domain/entities.py,
src/application/services.py).

Modelling conventions:
- Calendar dates are day numbers (`ℤ`, days since an arbitrary epoch);
  datetimes are `ℤ` seconds since the same epoch, so the midnight of day
  `d` is `d * 86400` seconds.
- Python `Decimal` amounts and percentages are `ℚ` (the repo only ever
  divides by 100 and 3600, which is exact at Decimal's precision).
- pydantic construction checks (e.g. `Money.amount` with `Field(gt=0)`)
  are modelled by `Option`-returning smart constructors where the source
  constructs a fresh value at runtime; a raised pydantic/ValueError is
  `none` / an error value, and, matching Python's in-place mutation,
  entity methods that can raise mid-way return the error together with
  the state the object holds at the moment of the raise.
- Wall-clock reads (`date.today()`, `datetime.utcnow()`) are explicit
  parameters `today` (days) and `now` (seconds).
-/

/-! ## Enums (src/domain/enums.py) -/

inductive ReservationStatus where
  | PENDING
  | CONFIRMED
  | CHECKED_IN
  | CHECKED_OUT
  | CANCELLED
  | NO_SHOW
deriving DecidableEq, Repr

inductive ReservationSource where
  | WEBSITE
  | MOBILE_APP
  | PHONE
  | OTA
  | DIRECT
  | CORPORATE
deriving DecidableEq, Repr

inductive WaitlistStatus where
  | ACTIVE
  | CONVERTED
  | EXPIRED
  | CANCELLED
deriving DecidableEq, Repr

/-- `Priority(int, Enum)`: LOW=1, MEDIUM=2, HIGH=3, URGENT=4. -/
inductive Priority where
  | LOW
  | MEDIUM
  | HIGH
  | URGENT
deriving DecidableEq, Repr

/-- The integer value carried by the `Priority` enum member. -/
def Priority.val : Priority → ℤ
  | .LOW => 1
  | .MEDIUM => 2
  | .HIGH => 3
  | .URGENT => 4

/-! ## Value objects (src/domain/value_objects.py) -/

/-- `DateRange`: check-in / check-out as day numbers. The pydantic
validator (`check_out > check_in`) is the predicate `DateRange.valid`. -/
structure DateRange where
  check_in : ℤ
  check_out : ℤ
deriving DecidableEq, Repr

def DateRange.nights (d : DateRange) : ℤ := d.check_out - d.check_in

def DateRange.valid (d : DateRange) : Prop := d.check_in < d.check_out

/-- `Money`: amount (Decimal) and currency. -/
structure Money where
  amount : ℚ
  currency : String
deriving DecidableEq, Repr

/-- pydantic construction of `Money`: `amount: Decimal = Field(gt=0)`
rejects any non-positive amount, so constructing a `Money` is fallible. -/
def mkMoney (amount : ℚ) (currency : String) : Option Money :=
  if 0 < amount then some ⟨amount, currency⟩ else none

/-- `GuestCount` raw field values; the pydantic bounds
(`adults ∈ [1,10]`, `children ∈ [0,10]`) are separate from the
domain-level validation `Reservation.validate_guest_count`, which the
entity re-checks on its own. -/
structure GuestCount where
  adults : ℤ
  children : ℤ
deriving DecidableEq, Repr

/-- `CancellationPolicy`: refund percentage in [0,100], deadline ≥ 0. -/
structure CancellationPolicy where
  policy_name : String
  refund_percentage : ℚ
  deadline_hours : ℤ
deriving DecidableEq, Repr

/-! ## Availability aggregate (src/domain/entities.py, class Availability) -/

structure Availability where
  room_type_id : String
  availability_date : ℤ
  total_rooms : ℤ
  reserved_rooms : ℤ
  blocked_rooms : ℤ
  overbooking_threshold : ℤ
  last_updated : ℤ
  version : ℤ
deriving DecidableEq, Repr

/-- `available_rooms = total_rooms - reserved_rooms - blocked_rooms`. -/
def Availability.available_rooms (a : Availability) : ℤ :=
  a.total_rooms - a.reserved_rooms - a.blocked_rooms

/-- `check_availability(count)`:
`available_rooms >= count or available_rooms + overbooking_threshold >= count`. -/
def Availability.check_availability (a : Availability) (count : ℤ) : Bool :=
  decide (a.available_rooms ≥ count) ||
    decide (a.available_rooms + a.overbooking_threshold ≥ count)

/-- `reserve_rooms(count)`: raises (`none`) when `check_availability`
fails, else `reserved_rooms += count`, bumping `last_updated`/`version`. -/
def Availability.reserve_rooms (a : Availability) (now count : ℤ) :
    Option Availability :=
  if a.check_availability count then
    some { a with
      reserved_rooms := a.reserved_rooms + count
      last_updated := now
      version := a.version + 1 }
  else none

/-- `release_rooms(count)`: raises when `count > reserved_rooms`, else
`reserved_rooms -= count`. -/
def Availability.release_rooms (a : Availability) (now count : ℤ) :
    Option Availability :=
  if a.reserved_rooms < count then none
  else
    some { a with
      reserved_rooms := a.reserved_rooms - count
      last_updated := now
      version := a.version + 1 }

/-- `block_rooms(count, reason)`: raises when
`blocked_rooms + count > total_rooms`, else `blocked_rooms += count`.
(`reason` is accepted but not stored, as in the source.) -/
def Availability.block_rooms (a : Availability) (now count : ℤ)
    (reason : String) : Option Availability :=
  if a.total_rooms < a.blocked_rooms + count then none
  else
    some { a with
      blocked_rooms := a.blocked_rooms + count
      last_updated := now
      version := a.version + 1 }

/-- `unblock_rooms(count)`: raises when `count > blocked_rooms`, else
`blocked_rooms -= count`. -/
def Availability.unblock_rooms (a : Availability) (now count : ℤ) :
    Option Availability :=
  if a.blocked_rooms < count then none
  else
    some { a with
      blocked_rooms := a.blocked_rooms - count
      last_updated := now
      version := a.version + 1 }

/-! A call against an `Availability` row: a rejected mutation (Python
raise) leaves the row as it was, a successful one installs the new row. -/

inductive AvailOp where
  | reserve (count : ℤ)
  | release (count : ℤ)
  | block (count : ℤ) (reason : String)
  | unblock (count : ℤ)
deriving DecidableEq, Repr

def AvailOp.count : AvailOp → ℤ
  | .reserve c => c
  | .release c => c
  | .block c _ => c
  | .unblock c => c

def AvailOp.apply (op : AvailOp) (now : ℤ) (a : Availability) : Availability :=
  match op with
  | .reserve c => (a.reserve_rooms now c).getD a
  | .release c => (a.release_rooms now c).getD a
  | .block c reason => (a.block_rooms now c reason).getD a
  | .unblock c => (a.unblock_rooms now c).getD a

def applyOps (now : ℤ) : List AvailOp → Availability → Availability
  | [], a => a
  | op :: rest, a => applyOps now rest (op.apply now a)

/-! ## Reservation aggregate (src/domain/entities.py, class Reservation) -/

structure Reservation where
  confirmation_code : String
  guest_id : ℕ
  room_type_id : String
  date_range : DateRange
  guest_count : GuestCount
  total_amount : Money
  cancellation_policy : CancellationPolicy
  status : ReservationStatus
  reservation_source : ReservationSource
  created_at : ℤ
  modified_at : ℤ
  created_by : String
  version : ℤ
deriving DecidableEq, Repr

/-- `_validate_date_range`: check-in ≥ today, 1 ≤ nights ≤ 30; returns
the raised message, `none` when the range is acceptable. -/
def Reservation.validate_date_range (today : ℤ) (d : DateRange) :
    Option String :=
  if d.check_in < today then some "Check-in date must be today or later"
  else if d.nights < 1 then some "Minimum stay is 1 night"
  else if 30 < d.nights then some "Maximum stay is 30 nights"
  else none

/-- `_validate_guest_count`: adults ≥ 1 and adults + children > 0. -/
def Reservation.validate_guest_count (g : GuestCount) : Option String :=
  if g.adults < 1 then some "At least 1 adult is required"
  else if g.adults + g.children ≤ 0 then some "At least 1 guest is required"
  else none

/-- `_validate_amount`: amount > 0. -/
def Reservation.validate_amount (m : Money) : Option String :=
  if m.amount ≤ 0 then some "Amount must be greater than 0" else none

/-- The population `string.ascii_uppercase + string.digits` that
`_generate_confirmation_code` draws its 8 characters from. -/
def codeAlphabet : List Char :=
  "ABCDEFGHIJKLMNOPQRSTUVWXYZ0123456789".data

theorem codeAlphabet_length : codeAlphabet.length = 36 := rfl

/-- `_generate_confirmation_code`: `random.choices(population, k=8)`,
with the 8 random draws supplied as `pick`. -/
def Reservation.generate_confirmation_code (pick : Fin 8 → Fin 36) :
    String :=
  String.mk (List.ofFn fun i =>
    codeAlphabet.get (Fin.cast codeAlphabet_length.symm (pick i)))

/-- `Reservation.create`: validate date range, guest count and amount in
that order (first violation raises), then build a PENDING reservation
with a fresh confirmation code and version 1. -/
def Reservation.create (today now : ℤ) (pick : Fin 8 → Fin 36)
    (guest_id : ℕ) (room_type_id : String) (date_range : DateRange)
    (guest_count : GuestCount) (total_amount : Money)
    (cancellation_policy : CancellationPolicy)
    (reservation_source : ReservationSource) (created_by : String) :
    Except String Reservation :=
  match Reservation.validate_date_range today date_range with
  | some e => .error e
  | none =>
    match Reservation.validate_guest_count guest_count with
    | some e => .error e
    | none =>
      match Reservation.validate_amount total_amount with
      | some e => .error e
      | none =>
        .ok {
          confirmation_code := Reservation.generate_confirmation_code pick
          guest_id := guest_id
          room_type_id := room_type_id
          date_range := date_range
          guest_count := guest_count
          total_amount := total_amount
          cancellation_policy := cancellation_policy
          status := .PENDING
          reservation_source := reservation_source
          created_at := now
          modified_at := now
          created_by := created_by
          version := 1 }

/-- `(checkin_datetime - now).total_seconds() / 3600` with check-in taken
at midnight of its day. -/
def hoursUntilCheckin (check_in_day now : ℤ) : ℚ :=
  ((check_in_day * 86400 - now : ℤ) : ℚ) / 3600

/-- `is_modifiable`: status in {PENDING, CONFIRMED} and at least 24 hours
until check-in. -/
def Reservation.is_modifiable (r : Reservation) (now : ℤ) : Bool :=
  if ¬ (r.status = .PENDING ∨ r.status = .CONFIRMED) then false
  else if hoursUntilCheckin r.date_range.check_in now < 24 then false
  else true

/-- `is_cancellable`: status in {PENDING, CONFIRMED}. -/
def Reservation.is_cancellable (r : Reservation) : Bool :=
  if r.status = .PENDING ∨ r.status = .CONFIRMED then true else false

/-- `calculate_refund(cancellation_date)`: hours to check-in from the two
midnights; at or before the deadline the full amount, after it
`total_amount * refund_percentage / 100`; the result is a fresh pydantic
`Money` (which rejects a non-positive amount). -/
def Reservation.calculate_refund (r : Reservation)
    (cancellation_date : ℤ) : Option Money :=
  let hours_until_checkin : ℚ :=
    (((r.date_range.check_in - cancellation_date) * 86400 : ℤ) : ℚ) / 3600
  let refund_amount : ℚ :=
    if (r.cancellation_policy.deadline_hours : ℚ) ≤ hours_until_checkin then
      r.total_amount.amount
    else
      r.total_amount.amount * (r.cancellation_policy.refund_percentage / 100)
  mkMoney refund_amount r.total_amount.currency

def Reservation.get_nights (r : Reservation) : ℤ := r.date_range.nights

/-- `_recalculate_amount`: `Decimal(nights * 1_000_000)` in the existing
currency; constructing the new `Money` is the only way this can raise. -/
def Reservation.recalculate_amount (r : Reservation) : Option Reservation :=
  match mkMoney ((r.get_nights : ℚ) * 1000000) r.total_amount.currency with
  | none => none
  | some m => some { r with total_amount := m }

/-- Result of an in-place entity method: the raised message (if any)
together with the state the object holds afterwards — unchanged when the
method raises before mutating, partially mutated when it raises mid-way. -/
abbrev MutResult := Option String × Reservation

/-- `confirm(payment_confirmed)`. -/
def Reservation.confirm (r : Reservation) (now : ℤ)
    (payment_confirmed : Bool) : MutResult :=
  if r.status ≠ .PENDING then (some "Cannot confirm reservation", r)
  else if ¬ payment_confirmed then
    (some "Payment must be confirmed to proceed", r)
  else
    (none, { r with
      status := .CONFIRMED, modified_at := now, version := r.version + 1 })

/-- `check_in(room_number)` (`room_number` is accepted but not stored). -/
def Reservation.check_in (r : Reservation) (today now : ℤ)
    (room_number : String) : MutResult :=
  if ¬ (r.status = .PENDING ∨ r.status = .CONFIRMED) then
    (some "Cannot check in", r)
  else if today < r.date_range.check_in then
    (some "Cannot check in before check-in date", r)
  else
    (none, { r with
      status := .CHECKED_IN, modified_at := now, version := r.version + 1 })

/-- `check_out()`; the returned final bill is `total_amount` and is left
implicit here. -/
def Reservation.check_out (r : Reservation) (now : ℤ) : MutResult :=
  if r.status ≠ .CHECKED_IN then (some "Cannot check out", r)
  else
    (none, { r with
      status := .CHECKED_OUT, modified_at := now, version := r.version + 1 })

/-- `cancel(reason)`: refuses unless cancellable, computes the refund
(constructing the refund `Money` can itself raise), then cancels. -/
def Reservation.cancel (r : Reservation) (today now : ℤ)
    (reason : String) : MutResult :=
  if ¬ r.is_cancellable then (some "Cannot cancel reservation", r)
  else
    match r.calculate_refund today with
    | none => (some "Amount must be greater than 0", r)
    | some _ =>
      (none, { r with
        status := .CANCELLED, modified_at := now, version := r.version + 1 })

/-- `mark_no_show()`. -/
def Reservation.mark_no_show (r : Reservation) (now : ℤ) : MutResult :=
  if ¬ (r.status = .PENDING ∨ r.status = .CONFIRMED) then
    (some "Cannot mark as no-show", r)
  else
    (none, { r with
      status := .NO_SHOW, modified_at := now, version := r.version + 1 })

/-- `modify(new_date_range, new_guest_count, new_room_type_id)`:
guard on `is_modifiable`, then apply/validate the date range, then the
guest count, then the room type (Python truthiness: an empty string is
skipped), then recalculate the amount and bump `version`/`modified_at`.
A validation raise mid-way leaves the earlier assignments in place. -/
def Reservation.modify (r : Reservation) (today now : ℤ)
    (new_date_range : Option DateRange) (new_guest_count : Option GuestCount)
    (new_room_type_id : Option String) : MutResult :=
  if ¬ r.is_modifiable now then
    (some "Cannot modify reservation", r)
  else
    let step1 : MutResult :=
      match new_date_range with
      | none => (none, r)
      | some d =>
        match Reservation.validate_date_range today d with
        | some e => (some e, r)
        | none => (none, { r with date_range := d })
    match step1 with
    | (some e, r1) => (some e, r1)
    | (none, r1) =>
      let step2 : MutResult :=
        match new_guest_count with
        | none => (none, r1)
        | some g =>
          match Reservation.validate_guest_count g with
          | some e => (some e, r1)
          | none => (none, { r1 with guest_count := g })
      match step2 with
      | (some e, r2) => (some e, r2)
      | (none, r2) =>
        let r3 :=
          match new_room_type_id with
          | none => r2
          | some rt => if rt = "" then r2 else { r2 with room_type_id := rt }
        match r3.recalculate_amount with
        | none => (some "Amount must be greater than 0", r3)
        | some r4 =>
          (none, { r4 with modified_at := now, version := r4.version + 1 })

/-! ## WaitlistEntry aggregate (src/domain/entities.py, class WaitlistEntry) -/

structure WaitlistEntry where
  waitlist_id : ℕ
  guest_id : ℕ
  room_type_id : String
  requested_dates : DateRange
  guest_count : GuestCount
  priority : Priority
  status : WaitlistStatus
  created_at : ℤ
  expires_at : ℤ
  notified_at : Option ℤ
  converted_reservation_id : Option ℕ
deriving DecidableEq, Repr

/-- `upgrade_priority(new_priority)`: applied only when the new
priority's enum value is strictly greater than the current one. -/
def WaitlistEntry.upgrade_priority (w : WaitlistEntry)
    (new_priority : Priority) : WaitlistEntry :=
  if w.priority.val < new_priority.val then { w with priority := new_priority }
  else w

/-! ## AvailabilityService (src/application/services.py)

The repository rows returned by `find_by_room_and_date_range` are the
input list; persisting a row (`repository.update`) replaces it in the
output list. `runMutator` is the `try: for avail in availabilities: ...`
loop: on the first row whose mutator raises, the loop stops, the
exception is caught and `False` is returned, with the rows already
mutated and persisted kept and the failing and remaining rows untouched. -/

def runMutator (m : Availability → Option Availability) :
    List Availability → Bool × List Availability
  | [] => (true, [])
  | a :: rest =>
    match m a with
    | none => (false, a :: rest)
    | some a2 =>
      let r := runMutator m rest
      (r.1, a2 :: r.2)

/-- `AvailabilityService.reserve_rooms` over the fetched rows. -/
def AvailabilityService.reserve_rooms (now count : ℤ)
    (rows : List Availability) : Bool × List Availability :=
  if rows = [] then (false, rows)
  else runMutator (fun a => a.reserve_rooms now count) rows

/-- `AvailabilityService.release_rooms` over the fetched rows. -/
def AvailabilityService.release_rooms (now count : ℤ)
    (rows : List Availability) : Bool × List Availability :=
  if rows = [] then (false, rows)
  else runMutator (fun a => a.release_rooms now count) rows

/-- `AvailabilityService.block_rooms` over the fetched rows. -/
def AvailabilityService.block_rooms (now count : ℤ) (reason : String)
    (rows : List Availability) : Bool × List Availability :=
  if rows = [] then (false, rows)
  else runMutator (fun a => a.block_rooms now count reason) rows

/-- `AvailabilityService.unblock_rooms` over the fetched rows. -/
def AvailabilityService.unblock_rooms (now count : ℤ)
    (rows : List Availability) : Bool × List Availability :=
  if rows = [] then (false, rows)
  else runMutator (fun a => a.unblock_rooms now count) rows

/-- Whether a factory call returned a reservation (no exception). -/
def exceptIsOk : Except String Reservation → Bool
  | .ok _ => true
  | .error _ => false

/-- A character allowed in a confirmation code: `[A-Z0-9]`. -/
def confirmationCharOk (c : Char) : Bool :=
  (decide ('A' ≤ c) && decide (c ≤ 'Z')) ||
    (decide ('0' ≤ c) && decide (c ≤ '9'))

/-! ## Concrete rows and entries used to instantiate the theorems -/

/-- The degenerate draw: always the first population character. -/
def pickA : Fin 8 → Fin 36 := fun _ => 0

/-- A row with one physical room and no reservations or blocks. -/
def availNeg : Availability :=
  { room_type_id := "R", availability_date := 0, total_rooms := 1,
    reserved_rooms := 0, blocked_rooms := 0, overbooking_threshold := 0,
    last_updated := 0, version := 1 }

/-- A fresh two-room row. -/
def availRT : Availability :=
  { room_type_id := "R", availability_date := 0, total_rooms := 2,
    reserved_rooms := 0, blocked_rooms := 0, overbooking_threshold := 0,
    last_updated := 0, version := 1 }

/-- `availRT` after `reserve_rooms(1)` at time 5. -/
def availW : Availability :=
  { room_type_id := "R", availability_date := 0, total_rooms := 2,
    reserved_rooms := 1, blocked_rooms := 0, overbooking_threshold := 0,
    last_updated := 5, version := 2 }

/-- The reservation produced by `Reservation.create` at day 0 with the
degenerate draw `pickA` (confirmation code "AAAAAAAA"). -/
def resOkW : Reservation :=
  { confirmation_code := "AAAAAAAA", guest_id := 1, room_type_id := "RT",
    date_range := { check_in := 3, check_out := 5 },
    guest_count := { adults := 2, children := 1 },
    total_amount := { amount := 500, currency := "IDR" },
    cancellation_policy :=
      { policy_name := "Standard", refund_percentage := 80,
        deadline_hours := 24 },
    status := .PENDING, reservation_source := .WEBSITE,
    created_at := 0, modified_at := 0, created_by := "SYSTEM",
    version := 1 }

/-- A checked-out (terminal) reservation. -/
def resTerm : Reservation :=
  { confirmation_code := "ABCD1234", guest_id := 1, room_type_id := "RT",
    date_range := { check_in := 10, check_out := 12 },
    guest_count := { adults := 2, children := 0 },
    total_amount := { amount := 2000000, currency := "IDR" },
    cancellation_policy :=
      { policy_name := "Standard", refund_percentage := 80,
        deadline_hours := 24 },
    status := .CHECKED_OUT, reservation_source := .WEBSITE,
    created_at := 0, modified_at := 0, created_by := "SYSTEM",
    version := 3 }

/-- A confirmed reservation under a 0%-refund policy with a 48-hour
deadline, check-in at day 1. -/
def refundNone : Reservation :=
  { confirmation_code := "ZZZZ0000", guest_id := 2, room_type_id := "RT",
    date_range := { check_in := 1, check_out := 3 },
    guest_count := { adults := 1, children := 0 },
    total_amount := { amount := 100, currency := "IDR" },
    cancellation_policy :=
      { policy_name := "NoRefund", refund_percentage := 0,
        deadline_hours := 48 },
    status := .CONFIRMED, reservation_source := .WEBSITE,
    created_at := 0, modified_at := 0, created_by := "SYSTEM",
    version := 1 }

/-- A confirmed reservation under the standard 80%/24h policy with
check-in at day 0 and total 5,000. -/
def refundW : Reservation :=
  { confirmation_code := "QQQQ1111", guest_id := 3, room_type_id := "RT",
    date_range := { check_in := 0, check_out := 2 },
    guest_count := { adults := 1, children := 0 },
    total_amount := { amount := 5000, currency := "IDR" },
    cancellation_policy :=
      { policy_name := "Standard", refund_percentage := 80,
        deadline_hours := 24 },
    status := .CONFIRMED, reservation_source := .WEBSITE,
    created_at := 0, modified_at := 0, created_by := "SYSTEM",
    version := 1 }

/-- A row on which every mutator with count 1 succeeds
(total=5, reserved=2, blocked=2). -/
def availGood : Availability :=
  { room_type_id := "R", availability_date := 0, total_rooms := 5,
    reserved_rooms := 2, blocked_rooms := 2, overbooking_threshold := 0,
    last_updated := 0, version := 1 }

/-- A row on which every mutator with count 1 raises
(total=0, reserved=0, blocked=0, no overbooking). -/
def availBad : Availability :=
  { room_type_id := "R", availability_date := 1, total_rooms := 0,
    reserved_rooms := 0, blocked_rooms := 0, overbooking_threshold := 0,
    last_updated := 0, version := 1 }

/-- A MEDIUM-priority active waitlist entry. -/
def wlW : WaitlistEntry :=
  { waitlist_id := 0, guest_id := 0, room_type_id := "R",
    requested_dates := { check_in := 10, check_out := 12 },
    guest_count := { adults := 1, children := 0 },
    priority := .MEDIUM, status := .ACTIVE, created_at := 0,
    expires_at := 1209600, notified_at := none,
    converted_reservation_id := none }

/-! ## Theorems -/

/-- Helper: a single availability call with a nonnegative count keeps
`reserved_rooms` and `blocked_rooms` nonnegative, whether it is accepted
or rejected. -/
theorem availOp_apply_nonneg (now : ℤ) (op : AvailOp) (a : Availability)
    (hc : 0 ≤ op.count) (h1 : 0 ≤ a.reserved_rooms)
    (h2 : 0 ≤ a.blocked_rooms) :
    0 ≤ (op.apply now a).reserved_rooms ∧
    0 ≤ (op.apply now a).blocked_rooms := by
  cases op with
  | reserve c =>
    simp only [AvailOp.count] at hc
    simp only [AvailOp.apply, Availability.reserve_rooms]
    split
    · exact ⟨by simpa using by omega, by simpa using h2⟩
    · exact ⟨h1, h2⟩
  | release c =>
    simp only [AvailOp.count] at hc
    simp only [AvailOp.apply, Availability.release_rooms]
    split
    · exact ⟨h1, h2⟩
    · next hguard => exact ⟨by simpa using by omega, by simpa using h2⟩
  | block c reason =>
    simp only [AvailOp.count] at hc
    simp only [AvailOp.apply, Availability.block_rooms]
    split
    · exact ⟨h1, h2⟩
    · exact ⟨by simpa using h1, by simpa using by omega⟩
  | unblock c =>
    simp only [AvailOp.count] at hc
    simp only [AvailOp.apply, Availability.unblock_rooms]
    split
    · exact ⟨h1, h2⟩
    · next hguard => exact ⟨by simpa using h1, by simpa using by omega⟩

/-- Claim C2 (as stated, with arbitrary integer counts) is false: on the
row (total=1, reserved=0, blocked=0, overbooking=0), `reserve_rooms(-1)`
is accepted — `check_availability(-1)` passes — and leaves
`reserved_rooms = -1 < 0`. -/
theorem reserve_negative_count_breaks_invariant :
    (availNeg.reserve_rooms 0 (-1)).isSome = true ∧
    (applyOps 0 [AvailOp.reserve (-1)] availNeg).reserved_rooms = -1 ∧
    (applyOps 0 [AvailOp.reserve (-1)] availNeg).reserved_rooms < 0 := by
  decide

/-- Claim C2 (amended: counts restricted to nonnegative integers): for
every sequence of reserve/release/block/unblock calls whose counts are
all ≥ 0, starting from a row with nonnegative `reserved_rooms` and
`blocked_rooms`, both fields stay ≥ 0 after every accepted and every
rejected mutation. -/
theorem availability_counters_never_negative (now : ℤ)
    (ops : List AvailOp) (a : Availability)
    (hops : ∀ op ∈ ops, 0 ≤ op.count)
    (h1 : 0 ≤ a.reserved_rooms) (h2 : 0 ≤ a.blocked_rooms) :
    0 ≤ (applyOps now ops a).reserved_rooms ∧
    0 ≤ (applyOps now ops a).blocked_rooms := by
  induction ops generalizing a with
  | nil => exact ⟨h1, h2⟩
  | cons op rest ih =>
    simp only [applyOps]
    have hstep := availOp_apply_nonneg now op a (hops op (by simp)) h1 h2
    exact ih (op.apply now a)
      (fun o ho => hops o (List.mem_cons_of_mem _ ho)) hstep.1 hstep.2

/-- Concrete run of `availability_counters_never_negative` on the row
(total=2, reserved=1, blocked=0) with a mixed call sequence. -/
theorem availability_counters_never_negative_witness :
    (∀ op ∈ ([.reserve 1, .release 2, .block 1 "maint", .unblock 1] :
        List AvailOp), 0 ≤ op.count) ∧
    0 ≤ (applyOps 0 [.reserve 1, .release 2, .block 1 "maint", .unblock 1]
          availW).reserved_rooms ∧
    0 ≤ (applyOps 0 [.reserve 1, .release 2, .block 1 "maint", .unblock 1]
          availW).blocked_rooms :=
  ⟨by decide,
   (availability_counters_never_negative 0
      [.reserve 1, .release 2, .block 1 "maint", .unblock 1] availW
      (by decide) (by decide) (by decide)).1,
   (availability_counters_never_negative 0
      [.reserve 1, .release 2, .block 1 "maint", .unblock 1] availW
      (by decide) (by decide) (by decide)).2⟩

/-- Claim C4: `check_availability(count)` holds exactly when
`available_rooms ≥ count` or `available_rooms + overbooking_threshold ≥
count` (with `available_rooms = total - reserved - blocked`), and
`reserve_rooms(count)` raises exactly when `check_availability(count)` is
false, otherwise adds `count` to `reserved_rooms` and leaves
`total_rooms`, `blocked_rooms` and `overbooking_threshold` unchanged. -/
theorem check_availability_reserve_spec (a : Availability)
    (count now : ℤ) :
    (a.check_availability count = true ↔
      a.total_rooms - a.reserved_rooms - a.blocked_rooms ≥ count ∨
      a.total_rooms - a.reserved_rooms - a.blocked_rooms +
        a.overbooking_threshold ≥ count)
    ∧ (a.reserve_rooms now count = none ↔
        a.check_availability count = false)
    ∧ (a.reserve_rooms now count).map Availability.reserved_rooms =
        (if a.check_availability count then some (a.reserved_rooms + count)
         else none)
    ∧ (a.reserve_rooms now count).map Availability.total_rooms =
        (if a.check_availability count then some a.total_rooms else none)
    ∧ (a.reserve_rooms now count).map Availability.blocked_rooms =
        (if a.check_availability count then some a.blocked_rooms else none)
    ∧ (a.reserve_rooms now count).map Availability.overbooking_threshold =
        (if a.check_availability count then some a.overbooking_threshold
         else none) := by
  refine ⟨?_, ?_, ?_, ?_, ?_, ?_⟩
  · simp [Availability.check_availability, Availability.available_rooms]
  all_goals
    unfold Availability.reserve_rooms
    cases h : a.check_availability count <;> simp [h]

/-- Claim C7: on a row with `reserved_rooms ≥ 0` (the pydantic field
bound), any accepted `reserve_rooms(n)` followed by `release_rooms(n)`
succeeds and brings `reserved_rooms` back to its pre-reserve value. -/
theorem reserve_release_round_trip (a a1 : Availability)
    (n now now2 : ℤ) (h0 : 0 ≤ a.reserved_rooms)
    (h : a.reserve_rooms now n = some a1) :
    (a1.release_rooms now2 n).map Availability.reserved_rooms =
      some a.reserved_rooms := by
  unfold Availability.reserve_rooms at h
  split at h
  · cases h
    unfold Availability.release_rooms
    rw [if_neg (by simpa using by omega)]
    simp
  · exact Option.noConfusion h

/-- Concrete run of `reserve_release_round_trip`: reserving then
releasing 2 rooms on the row (total=2, reserved=1) restores
`reserved_rooms = 1` (via overbooking-free rejection the reserve of 2
would fail, so the witness reserves 1). -/
theorem reserve_release_round_trip_witness :
    (availW.release_rooms 7 1).map Availability.reserved_rooms = some 0 ∧
    0 ≤ availRT.reserved_rooms :=
  ⟨reserve_release_round_trip availRT availW 1 5 7 (by decide) (by decide),
   by decide⟩

/-- Claim C8: `upgrade_priority(new)` installs the new priority exactly
when its enum value is strictly greater than the current one, and leaves
the priority unchanged when it is lower or equal. -/
theorem upgrade_priority_monotonic (w : WaitlistEntry) (p : Priority) :
    (w.priority.val < p.val → (w.upgrade_priority p).priority = p) ∧
    (p.val ≤ w.priority.val →
      (w.upgrade_priority p).priority = w.priority) := by
  unfold WaitlistEntry.upgrade_priority
  constructor
  · intro h; rw [if_pos h]
  · intro h; rw [if_neg (by omega)]

/-- Concrete run of `upgrade_priority_monotonic` on a MEDIUM-priority
entry: upgrading to HIGH applies, downgrading to LOW is ignored. -/
theorem upgrade_priority_monotonic_witness :
    (wlW.upgrade_priority .HIGH).priority = .HIGH ∧
    (wlW.upgrade_priority .LOW).priority = .MEDIUM :=
  ⟨(upgrade_priority_monotonic wlW .HIGH).1 (by decide),
   (upgrade_priority_monotonic wlW .LOW).2 (by decide)⟩

/-- Claim C5: a reservation whose status is CHECKED_OUT, CANCELLED or
NO_SHOW is frozen — confirm, check_in, check_out, cancel, mark_no_show
and modify all raise and leave the status at the same terminal value. -/
theorem terminal_status_frozen (r : Reservation)
    (h : r.status = .CHECKED_OUT ∨ r.status = .CANCELLED ∨
      r.status = .NO_SHOW)
    (today now : ℤ) (b : Bool) (room reason : String)
    (nd : Option DateRange) (ng : Option GuestCount)
    (nrt : Option String) :
    ((r.confirm now b).1.isSome = true ∧
      (r.confirm now b).2.status = r.status) ∧
    ((r.check_in today now room).1.isSome = true ∧
      (r.check_in today now room).2.status = r.status) ∧
    ((r.check_out now).1.isSome = true ∧
      (r.check_out now).2.status = r.status) ∧
    ((r.cancel today now reason).1.isSome = true ∧
      (r.cancel today now reason).2.status = r.status) ∧
    ((r.mark_no_show now).1.isSome = true ∧
      (r.mark_no_show now).2.status = r.status) ∧
    ((r.modify today now nd ng nrt).1.isSome = true ∧
      (r.modify today now nd ng nrt).2.status = r.status) := by
  obtain h | h | h := h <;>
    exact ⟨by simp [Reservation.confirm, h],
      by simp [Reservation.check_in, h],
      by simp [Reservation.check_out, h],
      by simp [Reservation.cancel, Reservation.is_cancellable, h],
      by simp [Reservation.mark_no_show, h],
      by simp [Reservation.modify, Reservation.is_modifiable, h]⟩

/-- Concrete run of `terminal_status_frozen` on a checked-out
reservation: every lifecycle operation raises and the status stays
CHECKED_OUT. -/
theorem terminal_status_frozen_witness :
    ((resTerm.confirm 0 true).1.isSome = true ∧
      (resTerm.confirm 0 true).2.status = resTerm.status) ∧
    ((resTerm.check_in 20 0 "101").1.isSome = true ∧
      (resTerm.check_in 20 0 "101").2.status = resTerm.status) ∧
    ((resTerm.check_out 0).1.isSome = true ∧
      (resTerm.check_out 0).2.status = resTerm.status) ∧
    ((resTerm.cancel 20 0 "why").1.isSome = true ∧
      (resTerm.cancel 20 0 "why").2.status = resTerm.status) ∧
    ((resTerm.mark_no_show 0).1.isSome = true ∧
      (resTerm.mark_no_show 0).2.status = resTerm.status) ∧
    ((resTerm.modify 20 0 none none none).1.isSome = true ∧
      (resTerm.modify 20 0 none none none).2.status = resTerm.status) :=
  terminal_status_frozen resTerm (Or.inl rfl) 20 0 true "101" "why"
    none none none

/-- Helper: `_validate_date_range` accepts exactly when check-in is not
before today and the stay is between 1 and 30 nights. -/
theorem validate_date_range_none_iff (today : ℤ) (d : DateRange) :
    Reservation.validate_date_range today d = none ↔
      today ≤ d.check_in ∧ 1 ≤ d.nights ∧ d.nights ≤ 30 := by
  unfold Reservation.validate_date_range
  split_ifs <;> simp <;> omega

/-- Helper: `_validate_guest_count` accepts exactly when there is at
least one adult and a positive number of guests. -/
theorem validate_guest_count_none_iff (g : GuestCount) :
    Reservation.validate_guest_count g = none ↔
      1 ≤ g.adults ∧ 0 < g.adults + g.children := by
  unfold Reservation.validate_guest_count
  split_ifs <;> simp <;> omega

/-- Helper: `_validate_amount` accepts exactly the positive amounts. -/
theorem validate_amount_none_iff (m : Money) :
    Reservation.validate_amount m = none ↔ ¬ m.amount ≤ 0 := by
  unfold Reservation.validate_amount
  split_ifs with h <;> simp [h]

/-- Helper: every character drawn from the population is in `[A-Z0-9]`. -/
theorem codeAlphabet_chars_ok :
    ∀ j : Fin 36,
      confirmationCharOk
        (codeAlphabet.get (Fin.cast codeAlphabet_length.symm j)) = true := by
  decide

/-- Claim C3: `Reservation.create` raises a validation error whenever
check-in is before today, the stay is shorter than 1 or longer than 30
nights, there is no adult, the total guest count is below 1, or the
amount is not positive; and every successfully created reservation is
PENDING with an 8-character `[A-Z0-9]` confirmation code. -/
theorem create_validates_and_initializes (today now : ℤ)
    (pick : Fin 8 → Fin 36) (gid : ℕ) (rt : String) (dr : DateRange)
    (gc : GuestCount) (amt : Money) (pol : CancellationPolicy)
    (src : ReservationSource) (cb : String) :
    ((dr.check_in < today ∨ dr.nights < 1 ∨ 30 < dr.nights ∨
        gc.adults < 1 ∨ gc.adults + gc.children < 1 ∨ amt.amount ≤ 0) →
      exceptIsOk
        (Reservation.create today now pick gid rt dr gc amt pol src cb) =
        false) ∧
    (∀ r,
      Reservation.create today now pick gid rt dr gc amt pol src cb =
        .ok r →
      r.status = .PENDING ∧ r.confirmation_code.length = 8 ∧
        r.confirmation_code.data.all confirmationCharOk = true) := by
  constructor
  · intro h
    unfold Reservation.create
    cases hdr : Reservation.validate_date_range today dr with
    | some e => simp [exceptIsOk]
    | none =>
      cases hgc : Reservation.validate_guest_count gc with
      | some e => simp [exceptIsOk]
      | none =>
        cases hamt : Reservation.validate_amount amt with
        | some e => simp [exceptIsOk]
        | none =>
          exfalso
          rw [validate_date_range_none_iff] at hdr
          rw [validate_guest_count_none_iff] at hgc
          rw [validate_amount_none_iff] at hamt
          obtain ⟨hd1, hd2, hd3⟩ := hdr
          obtain ⟨hg1, hg2⟩ := hgc
          rcases h with h | h | h | h | h | h
          · omega
          · omega
          · omega
          · omega
          · omega
          · exact hamt h
  · intro r hr
    unfold Reservation.create at hr
    cases hdr : Reservation.validate_date_range today dr with
    | some e => rw [hdr] at hr; exact Except.noConfusion hr
    | none =>
      rw [hdr] at hr
      cases hgc : Reservation.validate_guest_count gc with
      | some e => rw [hgc] at hr; exact Except.noConfusion hr
      | none =>
        rw [hgc] at hr
        cases hamt : Reservation.validate_amount amt with
        | some e => rw [hamt] at hr; exact Except.noConfusion hr
        | none =>
          rw [hamt] at hr
          cases hr
          refine ⟨rfl, ?_, ?_⟩
          · show (Reservation.generate_confirmation_code pick).length = 8
            unfold Reservation.generate_confirmation_code
            simp [String.length]
          · show (Reservation.generate_confirmation_code
              pick).data.all confirmationCharOk = true
            unfold Reservation.generate_confirmation_code
            rw [List.all_eq_true]
            intro c hc
            rw [List.mem_ofFn] at hc
            obtain ⟨i, rfl⟩ := hc
            exact codeAlphabet_chars_ok (pick i)

/-- Concrete run of `create_validates_and_initializes`: creation with a
past check-in (day 3 when today is day 10) raises, and a valid creation
at day 0 yields the PENDING reservation `resOkW` with the 8-character
code "AAAAAAAA". -/
theorem create_validates_and_initializes_witness :
    exceptIsOk (Reservation.create 10 0 pickA 1 "RT"
      { check_in := 3, check_out := 5 } { adults := 2, children := 1 }
      { amount := 500, currency := "IDR" }
      { policy_name := "Standard", refund_percentage := 80,
        deadline_hours := 24 } .WEBSITE "SYSTEM") = false ∧
    (resOkW.status = .PENDING ∧ resOkW.confirmation_code.length = 8 ∧
      resOkW.confirmation_code.data.all confirmationCharOk = true) :=
  ⟨(create_validates_and_initializes 10 0 pickA 1 "RT"
      { check_in := 3, check_out := 5 } { adults := 2, children := 1 }
      { amount := 500, currency := "IDR" }
      { policy_name := "Standard", refund_percentage := 80,
        deadline_hours := 24 } .WEBSITE "SYSTEM").1 (Or.inl (by decide)),
   (create_validates_and_initializes 0 0 pickA 1 "RT"
      { check_in := 3, check_out := 5 } { adults := 2, children := 1 }
      { amount := 500, currency := "IDR" }
      { policy_name := "Standard", refund_percentage := 80,
        deadline_hours := 24 } .WEBSITE "SYSTEM").2 resOkW (by rfl)⟩

/-- Helper: `is_modifiable` holds for a PENDING/CONFIRMED reservation at
least 24 hours before check-in. -/
theorem is_modifiable_eq_true (r : Reservation) (now : ℤ)
    (hstat : r.status = .PENDING ∨ r.status = .CONFIRMED)
    (htime : 24 ≤ hoursUntilCheckin r.date_range.check_in now) :
    r.is_modifiable now = true := by
  unfold Reservation.is_modifiable
  rw [if_neg (not_not_intro hstat), if_neg (not_lt.mpr htime)]

/-- Claim C9: on a modifiable reservation (PENDING/CONFIRMED, ≥ 24 hours
before check-in) with a well-formed date range, `modify` with no new
values still succeeds, overwrites `total_amount` with nights × 1,000,000
in the existing currency, increments `version` and sets `modified_at`. -/
theorem modify_always_recalculates (r : Reservation) (today now : ℤ)
    (hstat : r.status = .PENDING ∨ r.status = .CONFIRMED)
    (htime : 24 ≤ hoursUntilCheckin r.date_range.check_in now)
    (hd : r.date_range.valid) :
    (r.modify today now none none none).1 = none ∧
    (r.modify today now none none none).2.total_amount =
      { amount := (r.date_range.nights : ℚ) * 1000000,
        currency := r.total_amount.currency } ∧
    (r.modify today now none none none).2.version = r.version + 1 ∧
    (r.modify today now none none none).2.modified_at = now := by
  have hmod := is_modifiable_eq_true r now hstat htime
  have h1 : (1 : ℤ) ≤ r.date_range.nights := by
    unfold DateRange.valid at hd
    unfold DateRange.nights
    omega
  have hpos : 0 < (r.date_range.nights : ℚ) * 1000000 := by
    have h2 : (0 : ℚ) < (r.date_range.nights : ℚ) := by
      exact_mod_cast (by omega : (0 : ℤ) < r.date_range.nights)
    exact mul_pos h2 (by norm_num)
  have hrec : r.recalculate_amount =
      some { r with total_amount :=
        { amount := (r.date_range.nights : ℚ) * 1000000,
          currency := r.total_amount.currency } } := by
    unfold Reservation.recalculate_amount mkMoney Reservation.get_nights
    rw [if_pos hpos]
  unfold Reservation.modify
  rw [if_neg (not_not_intro hmod)]
  simp [hrec]

/-- Concrete run of `modify_always_recalculates` on `resOkW` (2 nights,
amount 500): a no-argument `modify` bumps the amount to 2,000,000 IDR
and the version to 2. -/
theorem modify_always_recalculates_witness :
    (resOkW.modify 0 0 none none none).1 = none ∧
    (resOkW.modify 0 0 none none none).2.total_amount =
      { amount := 2000000, currency := "IDR" } ∧
    (resOkW.modify 0 0 none none none).2.version = 2 ∧
    (resOkW.modify 0 0 none none none).2.modified_at = 0 := by
  have H := modify_always_recalculates resOkW 0 0 (Or.inl rfl)
    (by norm_num [hoursUntilCheckin, resOkW])
    (by norm_num [DateRange.valid, resOkW])
  exact ⟨H.1, H.2.1.trans (by norm_num [DateRange.nights, resOkW]),
    H.2.2.1.trans (by decide), H.2.2.2⟩

/-- Claim C10: `modify` applies the new date range before validating the
new guest count, so with a valid new range and an invalid guest count it
raises after having already replaced `date_range`, leaving `version` and
`total_amount` untouched. -/
theorem modify_applies_date_range_before_guest_count (r : Reservation)
    (today now : ℤ) (d : DateRange) (g : GuestCount)
    (hmod : r.is_modifiable now = true)
    (hd : Reservation.validate_date_range today d = none)
    (hg : (Reservation.validate_guest_count g).isSome = true) :
    (r.modify today now (some d) (some g) none).1.isSome = true ∧
    (r.modify today now (some d) (some g) none).2.date_range = d ∧
    (r.modify today now (some d) (some g) none).2.version = r.version ∧
    (r.modify today now (some d) (some g) none).2.total_amount =
      r.total_amount := by
  obtain ⟨e, he⟩ := Option.isSome_iff_exists.mp hg
  unfold Reservation.modify
  rw [if_neg (not_not_intro hmod)]
  simp [hd, he]

/-- Concrete run of `modify_applies_date_range_before_guest_count` on
`resOkW`: a valid new range (days 4–6) with a zero-adult guest count
raises, yet the range is already replaced while version stays 1 and the
amount stays 500 IDR. -/
theorem modify_applies_date_range_before_guest_count_witness :
    (resOkW.modify 0 0 (some { check_in := 4, check_out := 6 })
      (some { adults := 0, children := 0 }) none).1.isSome = true ∧
    (resOkW.modify 0 0 (some { check_in := 4, check_out := 6 })
      (some { adults := 0, children := 0 }) none).2.date_range =
      { check_in := 4, check_out := 6 } ∧
    (resOkW.modify 0 0 (some { check_in := 4, check_out := 6 })
      (some { adults := 0, children := 0 }) none).2.version = 1 ∧
    (resOkW.modify 0 0 (some { check_in := 4, check_out := 6 })
      (some { adults := 0, children := 0 }) none).2.total_amount =
      { amount := 500, currency := "IDR" } := by
  have H := modify_applies_date_range_before_guest_count resOkW 0 0
    { check_in := 4, check_out := 6 } { adults := 0, children := 0 }
    (is_modifiable_eq_true resOkW 0 (Or.inl rfl)
      (by norm_num [hoursUntilCheckin, resOkW]))
    (by decide) (by decide)
  exact ⟨H.1, H.2.1, H.2.2.1, H.2.2.2⟩

/-- Claim C1 (as stated) is false: `calculate_refund` does not always
return a `Money`. On `refundNone` (0% refund, 48h deadline, check-in 24
hours after the cancellation date) the late-cancellation branch computes
a refund of 0, which pydantic's `Money` constructor (`amount > 0`)
rejects, so the call raises instead of returning. -/
theorem calculate_refund_zero_percentage_raises :
    refundNone.calculate_refund 0 = none := by
  norm_num [Reservation.calculate_refund, mkMoney, refundNone]

/-- Claim C1 (amended: for a reservation whose `total_amount` satisfies
the pydantic bound `amount > 0`): with `hours_until_checkin` computed
from the two midnights, the refund is the full amount at or before the
deadline; after the deadline it is `total × refund_percentage / 100`
when `refund_percentage > 0`, and the `Money` construction raises when
`refund_percentage = 0` (or negative); returned values keep the
currency of `total_amount`. -/
theorem calculate_refund_spec (r : Reservation) (asOf : ℤ)
    (hamt : 0 < r.total_amount.amount) :
    r.calculate_refund asOf =
      if (r.cancellation_policy.deadline_hours : ℚ) ≤
          (((r.date_range.check_in - asOf) * 86400 : ℤ) : ℚ) / 3600 then
        some { amount := r.total_amount.amount,
               currency := r.total_amount.currency }
      else if 0 < r.cancellation_policy.refund_percentage then
        some { amount := r.total_amount.amount *
                 (r.cancellation_policy.refund_percentage / 100),
               currency := r.total_amount.currency }
      else none := by
  by_cases hC : (r.cancellation_policy.deadline_hours : ℚ) ≤
      (((r.date_range.check_in - asOf) * 86400 : ℤ) : ℚ) / 3600
  · simp only [Reservation.calculate_refund, mkMoney, if_pos hC,
      if_pos hamt]
  · by_cases hp : 0 < r.cancellation_policy.refund_percentage
    · have hprod : 0 < r.total_amount.amount *
          (r.cancellation_policy.refund_percentage / 100) :=
        mul_pos hamt (by positivity)
      simp only [Reservation.calculate_refund, mkMoney, if_neg hC,
        if_pos hprod, if_pos hp]
    · have hle : r.total_amount.amount *
          (r.cancellation_policy.refund_percentage / 100) ≤ 0 :=
        mul_nonpos_of_nonneg_of_nonpos (le_of_lt hamt)
          (div_nonpos_of_nonpos_of_nonneg (not_lt.mp hp) (by norm_num))
      simp only [Reservation.calculate_refund, mkMoney, if_neg hC,
        if_neg (not_lt.mpr hle), if_neg hp]

/-- Concrete run of `calculate_refund_spec` on `refundW` (80%/24h,
check-in at the cancellation date): 0 hours to check-in is inside the
deadline, so the refund is 5000 × 80% = 4000 IDR. -/
theorem calculate_refund_spec_witness :
    refundW.calculate_refund 0 =
      some { amount := 4000, currency := "IDR" } :=
  (calculate_refund_spec refundW 0 (by norm_num [refundW])).trans
    (by norm_num [refundW])

/-- Helper: the service loop over `pre ++ b :: rest`, when every row of
`pre` succeeds and `b` raises, returns `false` with the `pre` rows
mutated-and-persisted and `b` and `rest` untouched. -/
theorem runMutator_partial (m : Availability → Option Availability)
    (pre rest : List Availability) (b : Availability)
    (hp : ∀ x ∈ pre, (m x).isSome = true) (hb : m b = none) :
    runMutator m (pre ++ b :: rest) =
      (false, pre.map (fun x => (m x).getD x) ++ b :: rest) := by
  induction pre with
  | nil => simp [runMutator, hb]
  | cons x xs ih =>
    obtain ⟨y, hy⟩ := Option.isSome_iff_exists.mp (hp x (by simp))
    simp only [List.cons_append, runMutator, hy, List.append_eq]
    rw [ih (fun z hz => hp z (List.mem_cons_of_mem _ hz))]
    simp [hy]

/-- Claim C6: each of the four `AvailabilityService` range operations
returns `false` without raising on an empty row list, and when a row's
mutator raises mid-loop the operation returns `false` while the
mutations already persisted to the earlier rows stay applied (the
failing row and the rows after it are untouched). -/
theorem availability_service_partial_failure (now count : ℤ)
    (reason : String) (pre rest : List Availability) (b : Availability)
    (h1 : ∀ x ∈ pre, (x.reserve_rooms now count).isSome = true)
    (h2 : b.reserve_rooms now count = none)
    (h3 : ∀ x ∈ pre, (x.release_rooms now count).isSome = true)
    (h4 : b.release_rooms now count = none)
    (h5 : ∀ x ∈ pre, (x.block_rooms now count reason).isSome = true)
    (h6 : b.block_rooms now count reason = none)
    (h7 : ∀ x ∈ pre, (x.unblock_rooms now count).isSome = true)
    (h8 : b.unblock_rooms now count = none) :
    AvailabilityService.reserve_rooms now count [] = (false, []) ∧
    AvailabilityService.release_rooms now count [] = (false, []) ∧
    AvailabilityService.block_rooms now count reason [] = (false, []) ∧
    AvailabilityService.unblock_rooms now count [] = (false, []) ∧
    AvailabilityService.reserve_rooms now count (pre ++ b :: rest) =
      (false,
        pre.map (fun x => (x.reserve_rooms now count).getD x) ++
          b :: rest) ∧
    AvailabilityService.release_rooms now count (pre ++ b :: rest) =
      (false,
        pre.map (fun x => (x.release_rooms now count).getD x) ++
          b :: rest) ∧
    AvailabilityService.block_rooms now count reason (pre ++ b :: rest) =
      (false,
        pre.map (fun x => (x.block_rooms now count reason).getD x) ++
          b :: rest) ∧
    AvailabilityService.unblock_rooms now count (pre ++ b :: rest) =
      (false,
        pre.map (fun x => (x.unblock_rooms now count).getD x) ++
          b :: rest) := by
  refine ⟨by simp [AvailabilityService.reserve_rooms],
    by simp [AvailabilityService.release_rooms],
    by simp [AvailabilityService.block_rooms],
    by simp [AvailabilityService.unblock_rooms], ?_, ?_, ?_, ?_⟩
  · unfold AvailabilityService.reserve_rooms
    rw [if_neg (by simp), runMutator_partial _ _ _ _ h1 h2]
  · unfold AvailabilityService.release_rooms
    rw [if_neg (by simp), runMutator_partial _ _ _ _ h3 h4]
  · unfold AvailabilityService.block_rooms
    rw [if_neg (by simp), runMutator_partial _ _ _ _ h5 h6]
  · unfold AvailabilityService.unblock_rooms
    rw [if_neg (by simp), runMutator_partial _ _ _ _ h7 h8]

/-- Concrete run of `availability_service_partial_failure` with one good
row (`availGood`) followed by one exhausted row (`availBad`), count 1 at
time 3: all four operations return `false` and `availGood` keeps the
applied mutation while `availBad` is untouched. -/
theorem availability_service_partial_failure_witness :
    AvailabilityService.reserve_rooms 3 1 [] = (false, []) ∧
    AvailabilityService.release_rooms 3 1 [] = (false, []) ∧
    AvailabilityService.block_rooms 3 1 "maint" [] = (false, []) ∧
    AvailabilityService.unblock_rooms 3 1 [] = (false, []) ∧
    AvailabilityService.reserve_rooms 3 1 [availGood, availBad] =
      (false,
        [{ room_type_id := "R", availability_date := 0, total_rooms := 5,
           reserved_rooms := 3, blocked_rooms := 2,
           overbooking_threshold := 0, last_updated := 3, version := 2 },
         availBad]) ∧
    AvailabilityService.release_rooms 3 1 [availGood, availBad] =
      (false,
        [{ room_type_id := "R", availability_date := 0, total_rooms := 5,
           reserved_rooms := 1, blocked_rooms := 2,
           overbooking_threshold := 0, last_updated := 3, version := 2 },
         availBad]) ∧
    AvailabilityService.block_rooms 3 1 "maint" [availGood, availBad] =
      (false,
        [{ room_type_id := "R", availability_date := 0, total_rooms := 5,
           reserved_rooms := 2, blocked_rooms := 3,
           overbooking_threshold := 0, last_updated := 3, version := 2 },
         availBad]) ∧
    AvailabilityService.unblock_rooms 3 1 [availGood, availBad] =
      (false,
        [{ room_type_id := "R", availability_date := 0, total_rooms := 5,
           reserved_rooms := 2, blocked_rooms := 1,
           overbooking_threshold := 0, last_updated := 3, version := 2 },
         availBad]) := by
  have H := availability_service_partial_failure 3 1 "maint" [availGood]
    [] availBad (by decide) (by decide) (by decide) (by decide)
    (by decide) (by decide) (by decide) (by decide)
  exact ⟨H.1, H.2.1, H.2.2.1, H.2.2.2.1,
    H.2.2.2.2.1.trans (by decide),
    H.2.2.2.2.2.1.trans (by decide),
    H.2.2.2.2.2.2.1.trans (by decide),
    H.2.2.2.2.2.2.2.trans (by decide)⟩
